import Mathlib

/-!
Shallow embedding of `flatlib/ephem/swe.py`, the translation layer between
flatlib's domain vocabulary and the Swiss Ephemeris engine (pyswisseph).

The external engine is modelled as a structure of abstract response
functions; every adapter function returns its result together with the
ordered list of engine calls it performed, so that claims about which
engine routines are invoked (and with which arguments) are statable.
Floating point degrees and Julian days are modelled as rationals.
-/

namespace Swe

/-- Modelled from the spec: the body-identifier constants from
`flatlib.const` (that module is not part of src/); opaque domain symbols,
one per supported body. -/
def SUN : String := "Sun"

def MOON : String := "Moon"

def MERCURY : String := "Mercury"

def VENUS : String := "Venus"

def MARS : String := "Mars"

def JUPITER : String := "Jupiter"

def SATURN : String := "Saturn"

def URANUS : String := "Uranus"

def NEPTUNE : String := "Neptune"

def PLUTO : String := "Pluto"

def CHIRON : String := "Chiron"

def NORTH_NODE : String := "North Node"

def PHOLUS : String := "Pholus"

def CERES : String := "Ceres"

def PALLAS : String := "Pallas"

def JUNO : String := "Juno"

def VESTA : String := "Vesta"

/-- Modelled from the spec: the house-system identifier constants from
`flatlib.const` (not part of src/). -/
def HOUSES_PLACIDUS : String := "Placidus"

def HOUSES_KOCH : String := "Koch"

def HOUSES_PORPHYRIUS : String := "Porphyrius"

def HOUSES_REGIOMONTANUS : String := "Regiomontanus"

def HOUSES_CAMPANUS : String := "Campanus"

def HOUSES_EQUAL : String := "Equal"

def HOUSES_EQUAL_2 : String := "Equal 2"

def HOUSES_VEHLOW_EQUAL : String := "Vehlow Equal"

def HOUSES_WHOLE_SIGN : String := "Whole Sign"

def HOUSES_MERIDIAN : String := "Meridian"

def HOUSES_AZIMUTHAL : String := "Azimuthal"

def HOUSES_POLICH_PAGE : String := "Polich Page"

def HOUSES_ALCABITUS : String := "Alcabitus"

def HOUSES_MORINUS : String := "Morinus"

/-- Modelled from the spec: the ordered list of twelve house labels
(`const.LIST_HOUSES`, from `flatlib.const`, not part of src/). -/
def LIST_HOUSES : List String :=
  ["House1", "House2", "House3", "House4", "House5", "House6",
   "House7", "House8", "House9", "House10", "House11", "House12"]

/-- Modelled from the spec: the four angle labels from `flatlib.const`
(not part of src/). -/
def ASC : String := "Asc"

def MC : String := "MC"

def DESC : String := "Desc"

def IC : String := "IC"

/-- Source `SWE_OBJECTS`: map from body identifier to engine body code
(an association list standing for the Python dict). -/
def SWE_OBJECTS : List (String × ℕ) :=
  [(SUN, 0), (MOON, 1), (MERCURY, 2), (VENUS, 3), (MARS, 4),
   (JUPITER, 5), (SATURN, 6), (URANUS, 7), (NEPTUNE, 8), (PLUTO, 9),
   (CHIRON, 15), (NORTH_NODE, 10), (PHOLUS, 16), (CERES, 17),
   (PALLAS, 18), (JUNO, 19), (VESTA, 20)]

/-- Source `SWE_HOUSESYS`: map from house-system identifier to the
engine's single-byte house-system code. -/
def SWE_HOUSESYS : List (String × Char) :=
  [(HOUSES_PLACIDUS, 'P'), (HOUSES_KOCH, 'K'), (HOUSES_PORPHYRIUS, 'O'),
   (HOUSES_REGIOMONTANUS, 'R'), (HOUSES_CAMPANUS, 'C'), (HOUSES_EQUAL, 'A'),
   (HOUSES_EQUAL_2, 'E'), (HOUSES_VEHLOW_EQUAL, 'V'), (HOUSES_WHOLE_SIGN, 'W'),
   (HOUSES_MERIDIAN, 'X'), (HOUSES_AZIMUTHAL, 'H'), (HOUSES_POLICH_PAGE, 'T'),
   (HOUSES_ALCABITUS, 'B'), (HOUSES_MORINUS, 'M')]

/-- Modelled from the spec: the angle-normalization helper of the domain
module `flatlib.angle` (not part of src/): maps any degree value into
[0, 360). -/
def norm (x : ℚ) : ℚ := x - 360 * (⌊x / 360⌋ : ℤ)

/-- Modelled from the spec: the angle-distance helper of `flatlib.angle`
(not part of src/): the non-negative forward angular separation from `a`
to `b`, modulo 360. -/
def distance (a b : ℚ) : ℚ := norm (b - a)

/-- The engine constant `swisseph.CALC_RISE`. -/
def CALC_RISE : ℤ := 1

/-- The engine constant `swisseph.CALC_SET`. -/
def CALC_SET : ℤ := 2

/-- Response of `swisseph.calc_ut`: the six-element positional tuple and
the returned status flags. -/
structure CalcResult where
  xx : Fin 6 → ℚ
  flg : ℤ

/-- Response of `swisseph.houses_ex`: twelve cusp longitudes and the
eight-element ascmc tuple (ascendant, midheaven, and engine extras). -/
structure HousesResult where
  cusps : Fin 12 → ℚ
  ascmc : Fin 8 → ℚ

/-- Response of `swisseph.rise_trans`: a status and the tuple of event
times (the Python `trans[1]`). -/
structure RiseResult where
  res : ℤ
  tret : Fin 10 → ℚ

/-- Response of `swisseph.fixstar2_ut`: positional tuple, the engine's
resolved star name, and status flags. -/
structure FixstarResult where
  xx : Fin 6 → ℚ
  stnam : String
  flg : ℤ

/-- Response of the eclipse search routines: a status flag and the tuple
of phase times (the Python `sweList[1]`). -/
structure EclResult where
  retflag : ℤ
  tret : Fin 10 → ℚ

/-- The external Swiss Ephemeris engine, modelled as abstract response
functions for each of the routines the adapter invokes. -/
structure Engine where
  calcUt : ℚ → ℕ → ℤ → CalcResult
  housesEx : ℚ → ℚ → ℚ → Char → ℤ → HousesResult
  riseTrans : ℚ → ℕ → ℚ → ℚ → ℚ → ℚ → ℚ → ℤ → RiseResult
  fixstar2Ut : String → ℚ → ℤ → FixstarResult
  fixstar2Mag : String → ℚ
  solEclipseWhenGlob : ℚ → Bool → EclResult
  lunEclipseWhen : ℚ → Bool → EclResult

/-- A single engine invocation, recorded with its arguments. -/
inductive EngineCall where
  | setEphePath (path : String)
  | calcUt (jd : ℚ) (body : ℕ) (flags : ℤ)
  | housesEx (jd : ℚ) (lat : ℚ) (lon : ℚ) (hsys : Char) (flags : ℤ)
  | riseTrans (jd : ℚ) (body : ℕ) (lon : ℚ) (lat : ℚ) (press : ℚ)
      (temp : ℚ) (horizon : ℚ) (flag : ℤ)
  | fixstar2Ut (star : String) (jd : ℚ) (flag : ℤ)
  | fixstar2Mag (star : String)
  | solEclipseWhenGlob (jd : ℚ) (backward : Bool)
  | lunEclipseWhen (jd : ℚ) (backward : Bool)
  deriving DecidableEq

/-- A failed dictionary lookup (Python `KeyError`), carrying the missing
key. -/
structure KeyErr where
  key : String
  deriving DecidableEq

/-- The record returned by `sweObject` (the Python dict). -/
structure ObjectRecord where
  id : String
  lon : ℚ
  lat : ℚ
  lonspeed : ℚ
  latspeed : ℚ
  flg : ℤ
  deriving DecidableEq

/-- A house record of `sweHouses` (the Python dict). -/
structure HouseRecord where
  id : String
  lon : ℚ
  size : ℚ
  deriving DecidableEq

/-- An angle record of `sweHouses` (the Python dict). -/
structure AngleRecord where
  id : String
  lon : ℚ
  deriving DecidableEq

/-- The record returned by `sweFixedStar` (the Python dict). -/
structure FixedStarRecord where
  id : String
  mag : ℚ
  lon : ℚ
  lat : ℚ
  deriving DecidableEq

/-- The record returned by `solarEclipseGlobal` (the Python dict). -/
structure SolarEclipseRecord where
  maximum : ℚ
  beginJd : ℚ
  endJd : ℚ
  totalityBegin : ℚ
  totalityEnd : ℚ
  centerLineBegin : ℚ
  centerLineEnd : ℚ
  deriving DecidableEq

/-- The record returned by `lunarEclipseGlobal` (the Python dict). -/
structure LunarEclipseRecord where
  maximum : ℚ
  partialBegin : ℚ
  partialEnd : ℚ
  totalityBegin : ℚ
  totalityEnd : ℚ
  penumbralBegin : ℚ
  penumbralEnd : ℚ
  deriving DecidableEq

/-- Source `sweObject`: translates the body identifier, sets the engine's
ephemeris path (`sePath` stands for the process-wide configured
`flatlib.const.SE_PATH`), calls `calc_ut` and builds the record.
The second component is the ordered engine-call trace. -/
def sweObject (eng : Engine) (sePath : String) (obj : String) (jd : ℚ)
    (flags : ℤ) : Except KeyErr ObjectRecord × List EngineCall :=
  match SWE_OBJECTS.lookup obj with
  | none => (Except.error ⟨obj⟩, [])
  | some sweObj =>
    let r := eng.calcUt jd sweObj flags
    (Except.ok { id := obj, lon := r.xx 0, lat := r.xx 1,
                 lonspeed := r.xx 3, latspeed := r.xx 4, flg := r.flg },
     [EngineCall.setEphePath sePath, EngineCall.calcUt jd sweObj flags])

/-- Source `sweObjectLon`: translates the body identifier and calls
`calc_ut`, returning only element 0 of the positional tuple; it does not
set the ephemeris path. -/
def sweObjectLon (eng : Engine) (obj : String) (jd : ℚ) (flags : ℤ) :
    Except KeyErr ℚ × List EngineCall :=
  match SWE_OBJECTS.lookup obj with
  | none => (Except.error ⟨obj⟩, [])
  | some sweObj =>
    let r := eng.calcUt jd sweObj flags
    (Except.ok (r.xx 0), [EngineCall.calcUt jd sweObj flags])

/-- Source `sweNextTransit`: translates the body identifier, maps the
direction flag (`CALC_RISE` exactly for the string RISE, `CALC_SET`
otherwise), calls `rise_trans` with zero pressure, temperature and
horizon depression, and returns `trans[1][0]`. -/
def sweNextTransit (eng : Engine) (obj : String) (jd : ℚ) (lat : ℚ)
    (lon : ℚ) (flag : String) : Except KeyErr ℚ × List EngineCall :=
  match SWE_OBJECTS.lookup obj with
  | none => (Except.error ⟨obj⟩, [])
  | some sweObj =>
    let f := if flag == "RISE" then CALC_RISE else CALC_SET
    let r := eng.riseTrans jd sweObj lon lat 0 0 0 f
    (Except.ok (r.tret 0),
     [EngineCall.riseTrans jd sweObj lon lat 0 0 0 f])

/-- The cusp sequence with the first cusp appended at index 12 (the
Python `hlist += (hlist[0],)`), indexed by natural numbers. -/
def closeCusps (h : Fin 12 → ℚ) (i : ℕ) : ℚ :=
  if hi : i < 12 then h ⟨i, hi⟩ else h 0

/-- Source `sweHouses`: translates the house-system identifier, calls
`houses_ex`, closes the cusp circle and builds the twelve house records
(size = forward distance to the next cusp) and the four angle records
(Asc, MC, then Desc and IC derived by adding 180 and normalizing). -/
def sweHouses (eng : Engine) (jd : ℚ) (lat : ℚ) (lon : ℚ) (hsys : String)
    (flags : ℤ) :
    Except KeyErr (List HouseRecord × List AngleRecord) × List EngineCall :=
  match SWE_HOUSESYS.lookup hsys with
  | none => (Except.error ⟨hsys⟩, [])
  | some code =>
    let r := eng.housesEx jd lat lon code flags
    let hc := closeCusps r.cusps
    let houses := List.ofFn fun i : Fin 12 =>
      ({ id := LIST_HOUSES.getD i.val "", lon := hc i.val,
         size := distance (hc i.val) (hc (i.val + 1)) } : HouseRecord)
    let angles := [({ id := ASC, lon := r.ascmc 0 } : AngleRecord),
                   { id := MC, lon := r.ascmc 1 },
                   { id := DESC, lon := norm (r.ascmc 0 + 180) },
                   { id := IC, lon := norm (r.ascmc 1 + 180) }]
    (Except.ok (houses, angles),
     [EngineCall.housesEx jd lat lon code flags])

/-- Source `sweHousesLon`: translates the house-system identifier, calls
`houses_ex` and returns the raw cusp longitudes and the four angle
longitudes (with the same Desc/IC derivation), without record wrapping. -/
def sweHousesLon (eng : Engine) (jd : ℚ) (lat : ℚ) (lon : ℚ)
    (hsys : String) (flags : ℤ) :
    Except KeyErr (List ℚ × List ℚ) × List EngineCall :=
  match SWE_HOUSESYS.lookup hsys with
  | none => (Except.error ⟨hsys⟩, [])
  | some code =>
    let r := eng.housesEx jd lat lon code flags
    let angles := [r.ascmc 0, r.ascmc 1,
                   norm (r.ascmc 0 + 180), norm (r.ascmc 1 + 180)]
    (Except.ok (List.ofFn r.cusps, angles),
     [EngineCall.housesEx jd lat lon code flags])

/-- Source `sweFixedStar`: forces the flag to zero, calls `fixstar2_ut`
and `fixstar2_mag`, and builds the record; the engine's resolved star
name (`stnam`) is discarded and the id field is the caller's argument. -/
def sweFixedStar (eng : Engine) (star : String) (jd : ℚ) (flags : ℤ) :
    FixedStarRecord × List EngineCall :=
  let flag : ℤ := 0
  let r := eng.fixstar2Ut star jd flag
  let mag := eng.fixstar2Mag star
  ({ id := star, mag := mag, lon := r.xx 0, lat := r.xx 1 },
   [EngineCall.fixstar2Ut star jd flag, EngineCall.fixstar2Mag star])

/-- Source `solarEclipseGlobal`: calls `sol_eclipse_when_glob` and
relabels positions 0, 2, 3, 4, 5, 6, 7 of the timing tuple. -/
def solarEclipseGlobal (eng : Engine) (jd : ℚ) (backward : Bool) :
    SolarEclipseRecord × List EngineCall :=
  let r := eng.solEclipseWhenGlob jd backward
  ({ maximum := r.tret 0, beginJd := r.tret 2, endJd := r.tret 3,
     totalityBegin := r.tret 4, totalityEnd := r.tret 5,
     centerLineBegin := r.tret 6, centerLineEnd := r.tret 7 },
   [EngineCall.solEclipseWhenGlob jd backward])

/-- Source `lunarEclipseGlobal`: calls `lun_eclipse_when` and relabels
positions 0, 2, 3, 4, 5, 6, 7 of the timing tuple. -/
def lunarEclipseGlobal (eng : Engine) (jd : ℚ) (backward : Bool) :
    LunarEclipseRecord × List EngineCall :=
  let r := eng.lunEclipseWhen jd backward
  ({ maximum := r.tret 0, partialBegin := r.tret 2, partialEnd := r.tret 3,
     totalityBegin := r.tret 4, totalityEnd := r.tret 5,
     penumbralBegin := r.tret 6, penumbralEnd := r.tret 7 },
   [EngineCall.lunEclipseWhen jd backward])

/-- Projection: the house records of a `sweHouses` result (empty on a
lookup failure). -/
def housesOf
    (res : Except KeyErr (List HouseRecord × List AngleRecord) × List EngineCall) :
    List HouseRecord :=
  match res.1 with
  | Except.ok p => p.1
  | Except.error _ => []

/-- Projection: the angle records of a `sweHouses` result. -/
def anglesOf
    (res : Except KeyErr (List HouseRecord × List AngleRecord) × List EngineCall) :
    List AngleRecord :=
  match res.1 with
  | Except.ok p => p.2
  | Except.error _ => []

/-- Projection: the cusp longitudes of a `sweHousesLon` result. -/
def cuspLonsOf (res : Except KeyErr (List ℚ × List ℚ) × List EngineCall) :
    List ℚ :=
  match res.1 with
  | Except.ok p => p.1
  | Except.error _ => []

/-- Projection: the angle longitudes of a `sweHousesLon` result. -/
def angleLonsOf (res : Except KeyErr (List ℚ × List ℚ) × List EngineCall) :
    List ℚ :=
  match res.1 with
  | Except.ok p => p.2
  | Except.error _ => []

/-- Projection: the id field of a `sweObject` result. -/
def objIdOf (res : Except KeyErr ObjectRecord × List EngineCall) :
    Option String :=
  match res.1 with
  | Except.ok r => some r.id
  | Except.error _ => none

/-- Number of circular descents of a twelve-cusp tuple: indices whose
successor cusp (wrapping) is strictly smaller.  A genuine engine cusp
tuple winds once around the circle, so it has exactly one descent. -/
def descents (h : Fin 12 → ℚ) : ℕ :=
  (Finset.univ.filter fun i : Fin 12 => h (i + 1) < h i).card

/-- The engine contract for cusp tuples: all twelve cusps lie in
[0, 360) and the tuple winds exactly once around the circle. -/
def windsOnce (h : Fin 12 → ℚ) : Prop :=
  (∀ i, 0 ≤ h i ∧ h i < 360) ∧ descents h = 1

instance (h : Fin 12 → ℚ) : Decidable (windsOnce h) := by
  unfold windsOnce; infer_instance

lemma norm_nonneg (x : ℚ) : 0 ≤ norm x := by
  have h : (⌊x / 360⌋ : ℚ) ≤ x / 360 := Int.floor_le _
  unfold norm
  linarith

lemma norm_lt_360 (x : ℚ) : norm x < 360 := by
  have h : x / 360 < ⌊x / 360⌋ + 1 := Int.lt_floor_add_one _
  unfold norm
  linarith

lemma distance_nonneg (a b : ℚ) : 0 ≤ distance a b := norm_nonneg _

lemma distance_eq (a b : ℚ) (ha0 : 0 ≤ a) (ha : a < 360) (hb0 : 0 ≤ b)
    (hb : b < 360) :
    distance a b = b - a + if b < a then (360 : ℚ) else 0 := by
  unfold distance norm
  by_cases hlt : b < a
  · have hf : ⌊(b - a) / 360⌋ = -1 := by
      rw [Int.floor_eq_iff]
      constructor
      · push_cast
        linarith
      · push_cast
        linarith
    rw [hf, if_pos hlt]
    push_cast
    ring
  · have hf : ⌊(b - a) / 360⌋ = 0 := by
      rw [Int.floor_eq_iff]
      constructor
      · push_cast
        linarith [not_lt.mp hlt]
      · push_cast
        linarith
    rw [hf, if_neg hlt]
    push_cast
    ring

lemma sum_distance_eq (h : Fin 12 → ℚ) (hr : ∀ i, 0 ≤ h i ∧ h i < 360) :
    (∑ i : Fin 12, distance (h i) (h (i + 1))) = 360 * descents h := by
  have hstep : ∀ i : Fin 12, distance (h i) (h (i + 1)) =
      (h (i + 1) - h i) + if h (i + 1) < h i then (360 : ℚ) else 0 := fun i =>
    distance_eq _ _ (hr i).1 (hr i).2 (hr (i + 1)).1 (hr (i + 1)).2
  have htel : (∑ i : Fin 12, (h (i + 1) - h i)) = 0 := by
    have hcomp : (∑ i : Fin 12, h (i + 1)) = ∑ i : Fin 12, h i := by
      simpa using Equiv.sum_comp (Equiv.addRight (1 : Fin 12)) h
    rw [Finset.sum_sub_distrib, hcomp, sub_self]
  have hite : (∑ i : Fin 12, if h (i + 1) < h i then (360 : ℚ) else 0) =
      360 * descents h := by
    have hsplit : ∀ i : Fin 12,
        (if h (i + 1) < h i then (360 : ℚ) else 0) =
          360 * (if h (i + 1) < h i then (1 : ℚ) else 0) := by
      intro i
      split <;> ring
    rw [Finset.sum_congr rfl fun i _ => hsplit i, ← Finset.mul_sum,
      Finset.sum_boole]
    rfl
  calc (∑ i : Fin 12, distance (h i) (h (i + 1)))
      = ∑ i : Fin 12,
          ((h (i + 1) - h i) + if h (i + 1) < h i then (360 : ℚ) else 0) :=
        Finset.sum_congr rfl fun i _ => hstep i
    _ = (∑ i : Fin 12, (h (i + 1) - h i)) +
          ∑ i : Fin 12, (if h (i + 1) < h i then (360 : ℚ) else 0) :=
        Finset.sum_add_distrib
    _ = 360 * descents h := by rw [htel, hite, zero_add]

lemma closeCusps_val (h : Fin 12 → ℚ) (i : Fin 12) :
    closeCusps h i.val = h i := by
  simp [closeCusps]

lemma closeCusps_val_succ (h : Fin 12 → ℚ) (i : Fin 12) :
    closeCusps h (i.val + 1) = h (i + 1) := by
  by_cases hi : i.val + 1 < 12
  · rw [closeCusps, dif_pos hi]
    congr 1
    apply Fin.ext
    simp [Fin.add_def]
    omega
  · have h11 : i.val = 11 := by omega
    rw [closeCusps, dif_neg hi]
    congr 1
    apply Fin.ext
    simp [Fin.add_def, h11]

/-- A concrete engine instance used to exercise the adapter on explicit
inputs: whole-sign-style cusps at multiples of 30 degrees. -/
def testEngine : Engine where
  calcUt := fun _ _ _ => { xx := fun _ => 0, flg := 0 }
  housesEx := fun _ _ _ _ _ =>
    { cusps := ![0, 30, 60, 90, 120, 150, 180, 210, 240, 270, 300, 330],
      ascmc := fun _ => 0 }
  riseTrans := fun _ _ _ _ _ _ _ _ => { res := 0, tret := fun _ => 0 }
  fixstar2Ut := fun _ _ _ => { xx := fun _ => 0, stnam := "", flg := 0 }
  fixstar2Mag := fun _ => 0
  solEclipseWhenGlob := fun _ _ => { retflag := 0, tret := fun _ => 0 }
  lunEclipseWhen := fun _ _ => { retflag := 0, tret := fun _ => 0 }

/-- `testEngine` with the resolved star name changed: used to show the
engine's returned star name does not influence `sweFixedStar`. -/
def testEngine2 : Engine :=
  { testEngine with
    fixstar2Ut := fun _ _ _ => { xx := fun _ => 0, stnam := "Sirius", flg := 0 } }

/-- C3: an identifier absent from the corresponding static mapping makes
each translating operation (sweObject, sweObjectLon, sweNextTransit,
sweHouses, sweHousesLon) fail with a key-lookup error carrying the
missing key, and the engine-call trace is empty: no engine routine is
invoked. -/
theorem unmappedKeyFailsBeforeEngine (eng : Engine)
    (sePath obj hsys flag : String) (jd lat lon : ℚ) (flags : ℤ)
    (hobj : SWE_OBJECTS.lookup obj = none)
    (hhs : SWE_HOUSESYS.lookup hsys = none) :
    sweObject eng sePath obj jd flags = (Except.error ⟨obj⟩, []) ∧
    sweObjectLon eng obj jd flags = (Except.error ⟨obj⟩, []) ∧
    sweNextTransit eng obj jd lat lon flag = (Except.error ⟨obj⟩, []) ∧
    sweHouses eng jd lat lon hsys flags = (Except.error ⟨hsys⟩, []) ∧
    sweHousesLon eng jd lat lon hsys flags = (Except.error ⟨hsys⟩, []) := by
  refine ⟨?_, ?_, ?_, ?_, ?_⟩ <;>
    simp [sweObject, sweObjectLon, sweNextTransit, sweHouses, sweHousesLon,
      hobj, hhs]

/-- C3 witness: concrete unmapped identifiers fail with empty traces. -/
theorem unmappedKeyFailsBeforeEngine_witness :
    sweObject testEngine "" "Vulcan" 0 0 = (Except.error ⟨"Vulcan"⟩, []) ∧
    sweObjectLon testEngine "Vulcan" 0 0 = (Except.error ⟨"Vulcan"⟩, []) ∧
    sweNextTransit testEngine "Vulcan" 0 0 0 "RISE" =
      (Except.error ⟨"Vulcan"⟩, []) ∧
    sweHouses testEngine 0 0 0 "Gauquelin" 0 =
      (Except.error ⟨"Gauquelin"⟩, []) ∧
    sweHousesLon testEngine 0 0 0 "Gauquelin" 0 =
      (Except.error ⟨"Gauquelin"⟩, []) :=
  unmappedKeyFailsBeforeEngine testEngine "" "Vulcan" "Gauquelin" "RISE"
    0 0 0 0 (by decide) (by decide)

/-- C4: sweNextTransit selects the engine rise-search mode exactly for
the flag value RISE; every other flag value selects the set-search mode,
and any two non-RISE flags give identical behavior. -/
theorem nextTransitFlagSelection (eng : Engine) (obj : String)
    (jd lat lon : ℚ) (code : ℕ) (f : String)
    (hcode : SWE_OBJECTS.lookup obj = some code)
    (hf : f ≠ "RISE") :
    (sweNextTransit eng obj jd lat lon "RISE").2 =
      [EngineCall.riseTrans jd code lon lat 0 0 0 CALC_RISE] ∧
    (sweNextTransit eng obj jd lat lon f).2 =
      [EngineCall.riseTrans jd code lon lat 0 0 0 CALC_SET] ∧
    sweNextTransit eng obj jd lat lon f =
      sweNextTransit eng obj jd lat lon "SET" := by
  have hbeq : (f == "RISE") = false := beq_eq_false_iff_ne.mpr hf
  refine ⟨?_, ?_, ?_⟩ <;> simp [sweNextTransit, hcode, hbeq]

/-- C4 witness: an arbitrary third flag string behaves like SET. -/
theorem nextTransitFlagSelection_witness :
    (sweNextTransit testEngine SUN 0 0 0 "RISE").2 =
      [EngineCall.riseTrans 0 0 0 0 0 0 0 CALC_RISE] ∧
    (sweNextTransit testEngine SUN 0 0 0 "FOO").2 =
      [EngineCall.riseTrans 0 0 0 0 0 0 0 CALC_SET] ∧
    sweNextTransit testEngine SUN 0 0 0 "FOO" =
      sweNextTransit testEngine SUN 0 0 0 "SET" :=
  nextTransitFlagSelection testEngine SUN 0 0 0 0 "FOO" (by decide)
    (by decide)

/-- C5: sweFixedStar ignores the caller-supplied flags: any two flag
values give the same result, and the engine is called with flag zero. -/
theorem fixedStarFlagsIgnored (eng : Engine) (star : String) (jd : ℚ)
    (f1 f2 : ℤ) :
    sweFixedStar eng star jd f1 = sweFixedStar eng star jd f2 ∧
    (sweFixedStar eng star jd f1).2 =
      [EngineCall.fixstar2Ut star jd 0, EngineCall.fixstar2Mag star] :=
  ⟨rfl, rfl⟩

/-- C6: sweObject sets the engine ephemeris path before its calc_ut
call; sweObjectLon performs the same calc_ut call without any
path-setting side effect. -/
theorem pathSetOnlyInFullVariant (eng : Engine) (sePath obj : String)
    (jd : ℚ) (flags : ℤ) (code : ℕ)
    (hcode : SWE_OBJECTS.lookup obj = some code) :
    (sweObject eng sePath obj jd flags).2 =
      [EngineCall.setEphePath sePath, EngineCall.calcUt jd code flags] ∧
    (sweObjectLon eng obj jd flags).2 = [EngineCall.calcUt jd code flags] := by
  constructor <;> simp [sweObject, sweObjectLon, hcode]

/-- C6 witness: concrete traces for the Sun. -/
theorem pathSetOnlyInFullVariant_witness :
    (sweObject testEngine "/ephe" SUN 0 0).2 =
      [EngineCall.setEphePath "/ephe", EngineCall.calcUt 0 0 0] ∧
    (sweObjectLon testEngine SUN 0 0).2 = [EngineCall.calcUt 0 0 0] :=
  pathSetOnlyInFullVariant testEngine "/ephe" SUN 0 0 0 (by decide)

/-- C7: the record built by sweObject takes longitude, latitude,
longitude-speed and latitude-speed from tuple positions 0, 1, 3 and 4
(position 2, the distance, is skipped), plus the returned status flags. -/
theorem objectRecordFields (eng : Engine) (sePath obj : String) (jd : ℚ)
    (flags : ℤ) (code : ℕ)
    (hcode : SWE_OBJECTS.lookup obj = some code) :
    (sweObject eng sePath obj jd flags).1 = Except.ok
      { id := obj,
        lon := (eng.calcUt jd code flags).xx 0,
        lat := (eng.calcUt jd code flags).xx 1,
        lonspeed := (eng.calcUt jd code flags).xx 3,
        latspeed := (eng.calcUt jd code flags).xx 4,
        flg := (eng.calcUt jd code flags).flg } := by
  simp [sweObject, hcode]

/-- C7 witness: concrete record for the Sun. -/
theorem objectRecordFields_witness :
    (sweObject testEngine "" SUN 0 0).1 = Except.ok
      { id := SUN,
        lon := (testEngine.calcUt 0 0 0).xx 0,
        lat := (testEngine.calcUt 0 0 0).xx 1,
        lonspeed := (testEngine.calcUt 0 0 0).xx 3,
        latspeed := (testEngine.calcUt 0 0 0).xx 4,
        flg := (testEngine.calcUt 0 0 0).flg } :=
  objectRecordFields testEngine "" SUN 0 0 0 (by decide)

/-- C9: the eclipse wrappers relabel positions 0, 2, 3, 4, 5, 6, 7 of
the engine timing tuple into their named fields (position 1 discarded),
with no computation beyond the single engine call. -/
theorem eclipseRecordsRelabelTiming (eng : Engine) (jd : ℚ)
    (backward : Bool) :
    solarEclipseGlobal eng jd backward =
      ({ maximum := (eng.solEclipseWhenGlob jd backward).tret 0,
         beginJd := (eng.solEclipseWhenGlob jd backward).tret 2,
         endJd := (eng.solEclipseWhenGlob jd backward).tret 3,
         totalityBegin := (eng.solEclipseWhenGlob jd backward).tret 4,
         totalityEnd := (eng.solEclipseWhenGlob jd backward).tret 5,
         centerLineBegin := (eng.solEclipseWhenGlob jd backward).tret 6,
         centerLineEnd := (eng.solEclipseWhenGlob jd backward).tret 7 },
       [EngineCall.solEclipseWhenGlob jd backward]) ∧
    lunarEclipseGlobal eng jd backward =
      ({ maximum := (eng.lunEclipseWhen jd backward).tret 0,
         partialBegin := (eng.lunEclipseWhen jd backward).tret 2,
         partialEnd := (eng.lunEclipseWhen jd backward).tret 3,
         totalityBegin := (eng.lunEclipseWhen jd backward).tret 4,
         totalityEnd := (eng.lunEclipseWhen jd backward).tret 5,
         penumbralBegin := (eng.lunEclipseWhen jd backward).tret 6,
         penumbralEnd := (eng.lunEclipseWhen jd backward).tret 7 },
       [EngineCall.lunEclipseWhen jd backward]) :=
  ⟨rfl, rfl⟩

/-- C2: both sweHouses and sweHousesLon return the four angles in the
fixed order Asc, MC, Desc, IC, where Desc is the Ascendant plus 180
normalized into [0, 360) and IC is the Midheaven plus 180 normalized
into [0, 360); the normalized values indeed lie in [0, 360). -/
theorem derivedAnglesOppositePrimaries (eng : Engine) (jd lat lon : ℚ)
    (hsys : String) (flags : ℤ) (code : Char)
    (hcode : SWE_HOUSESYS.lookup hsys = some code) :
    anglesOf (sweHouses eng jd lat lon hsys flags) =
      [{ id := ASC, lon := (eng.housesEx jd lat lon code flags).ascmc 0 },
       { id := MC, lon := (eng.housesEx jd lat lon code flags).ascmc 1 },
       { id := DESC,
         lon := norm ((eng.housesEx jd lat lon code flags).ascmc 0 + 180) },
       { id := IC,
         lon := norm ((eng.housesEx jd lat lon code flags).ascmc 1 + 180) }] ∧
    angleLonsOf (sweHousesLon eng jd lat lon hsys flags) =
      [(eng.housesEx jd lat lon code flags).ascmc 0,
       (eng.housesEx jd lat lon code flags).ascmc 1,
       norm ((eng.housesEx jd lat lon code flags).ascmc 0 + 180),
       norm ((eng.housesEx jd lat lon code flags).ascmc 1 + 180)] ∧
    0 ≤ norm ((eng.housesEx jd lat lon code flags).ascmc 0 + 180) ∧
    norm ((eng.housesEx jd lat lon code flags).ascmc 0 + 180) < 360 ∧
    0 ≤ norm ((eng.housesEx jd lat lon code flags).ascmc 1 + 180) ∧
    norm ((eng.housesEx jd lat lon code flags).ascmc 1 + 180) < 360 := by
  refine ⟨?_, ?_, norm_nonneg _, norm_lt_360 _, norm_nonneg _,
    norm_lt_360 _⟩ <;>
    simp [anglesOf, angleLonsOf, sweHouses, sweHousesLon, hcode]

/-- C2 witness: concrete angle records for a Placidus query. -/
theorem derivedAnglesOppositePrimaries_witness :
    anglesOf (sweHouses testEngine 0 0 0 HOUSES_PLACIDUS 0) =
      [{ id := ASC, lon := (testEngine.housesEx 0 0 0 'P' 0).ascmc 0 },
       { id := MC, lon := (testEngine.housesEx 0 0 0 'P' 0).ascmc 1 },
       { id := DESC,
         lon := norm ((testEngine.housesEx 0 0 0 'P' 0).ascmc 0 + 180) },
       { id := IC,
         lon := norm ((testEngine.housesEx 0 0 0 'P' 0).ascmc 1 + 180) }] ∧
    angleLonsOf (sweHousesLon testEngine 0 0 0 HOUSES_PLACIDUS 0) =
      [(testEngine.housesEx 0 0 0 'P' 0).ascmc 0,
       (testEngine.housesEx 0 0 0 'P' 0).ascmc 1,
       norm ((testEngine.housesEx 0 0 0 'P' 0).ascmc 0 + 180),
       norm ((testEngine.housesEx 0 0 0 'P' 0).ascmc 1 + 180)] ∧
    0 ≤ norm ((testEngine.housesEx 0 0 0 'P' 0).ascmc 0 + 180) ∧
    norm ((testEngine.housesEx 0 0 0 'P' 0).ascmc 0 + 180) < 360 ∧
    0 ≤ norm ((testEngine.housesEx 0 0 0 'P' 0).ascmc 1 + 180) ∧
    norm ((testEngine.housesEx 0 0 0 'P' 0).ascmc 1 + 180) < 360 :=
  derivedAnglesOppositePrimaries testEngine 0 0 0 HOUSES_PLACIDUS 0 'P'
    (by decide)

/-- C8: for the same inputs and engine response, the longitudes of the
reduced variant sweHousesLon coincide elementwise with the lon fields of
the records returned by sweHouses, for the twelve cusps and for the four
angles (same Desc/IC derivation). -/
theorem housesLonRefinesHouses (eng : Engine) (jd lat lon : ℚ)
    (hsys : String) (flags : ℤ) (code : Char)
    (hcode : SWE_HOUSESYS.lookup hsys = some code) :
    (housesOf (sweHouses eng jd lat lon hsys flags)).map HouseRecord.lon =
      cuspLonsOf (sweHousesLon eng jd lat lon hsys flags) ∧
    (anglesOf (sweHouses eng jd lat lon hsys flags)).map AngleRecord.lon =
      angleLonsOf (sweHousesLon eng jd lat lon hsys flags) := by
  constructor
  · simp only [housesOf, cuspLonsOf, sweHouses, sweHousesLon, hcode,
      List.map_ofFn]
    congr 1
    funext i
    exact closeCusps_val _ i
  · simp [anglesOf, angleLonsOf, sweHouses, sweHousesLon, hcode]

/-- C8 witness: concrete agreement of the two variants. -/
theorem housesLonRefinesHouses_witness :
    (housesOf (sweHouses testEngine 0 0 0 HOUSES_PLACIDUS 0)).map
        HouseRecord.lon =
      cuspLonsOf (sweHousesLon testEngine 0 0 0 HOUSES_PLACIDUS 0) ∧
    (anglesOf (sweHouses testEngine 0 0 0 HOUSES_PLACIDUS 0)).map
        AngleRecord.lon =
      angleLonsOf (sweHousesLon testEngine 0 0 0 HOUSES_PLACIDUS 0) :=
  housesLonRefinesHouses testEngine 0 0 0 HOUSES_PLACIDUS 0 'P' (by decide)

/-- C1: sweHouses computes each house size as the forward angular
distance from its cusp to the next cusp in the circularly closed
sequence; for an engine cusp tuple satisfying the engine contract
(cusps in [0, 360), winding once around the circle) all twelve sizes
are non-negative and sum to exactly 360. -/
theorem houseSizesNonnegSumTo360 (eng : Engine) (jd lat lon : ℚ)
    (hsys : String) (flags : ℤ) (code : Char)
    (hcode : SWE_HOUSESYS.lookup hsys = some code)
    (hw : windsOnce (eng.housesEx jd lat lon code flags).cusps) :
    (housesOf (sweHouses eng jd lat lon hsys flags)).map HouseRecord.size =
      List.ofFn (fun i : Fin 12 =>
        distance ((eng.housesEx jd lat lon code flags).cusps i)
          ((eng.housesEx jd lat lon code flags).cusps (i + 1))) ∧
    ((housesOf (sweHouses eng jd lat lon hsys flags)).map
        HouseRecord.size).all (fun s => decide (0 ≤ s)) = true ∧
    ((housesOf (sweHouses eng jd lat lon hsys flags)).map
        HouseRecord.size).sum = 360 := by
  have hmap : (housesOf (sweHouses eng jd lat lon hsys flags)).map
      HouseRecord.size =
      List.ofFn (fun i : Fin 12 =>
        distance ((eng.housesEx jd lat lon code flags).cusps i)
          ((eng.housesEx jd lat lon code flags).cusps (i + 1))) := by
    simp only [housesOf, sweHouses, hcode, List.map_ofFn]
    congr 1
    funext i
    simp only [Function.comp]
    rw [closeCusps_val, closeCusps_val_succ]
  refine ⟨hmap, ?_, ?_⟩
  · rw [hmap]
    simp only [List.all_eq_true, List.mem_ofFn]
    rintro b ⟨i, rfl⟩
    exact decide_eq_true_eq.mpr (distance_nonneg _ _)
  · rw [hmap, List.sum_ofFn,
      sum_distance_eq (eng.housesEx jd lat lon code flags).cusps hw.1, hw.2]
    norm_num

/-- C1 witness: whole-sign style cusps at multiples of 30 degrees give
twelve non-negative sizes summing to 360. -/
theorem houseSizesNonnegSumTo360_witness :
    (housesOf (sweHouses testEngine 0 0 0 HOUSES_WHOLE_SIGN 0)).map
        HouseRecord.size =
      List.ofFn (fun i : Fin 12 =>
        distance ((testEngine.housesEx 0 0 0 'W' 0).cusps i)
          ((testEngine.housesEx 0 0 0 'W' 0).cusps (i + 1))) ∧
    ((housesOf (sweHouses testEngine 0 0 0 HOUSES_WHOLE_SIGN 0)).map
        HouseRecord.size).all (fun s => decide (0 ≤ s)) = true ∧
    ((housesOf (sweHouses testEngine 0 0 0 HOUSES_WHOLE_SIGN 0)).map
        HouseRecord.size).sum = 360 :=
  houseSizesNonnegSumTo360 testEngine 0 0 0 HOUSES_WHOLE_SIGN 0 'W'
    (by decide) (by decide)

/-- C10: the id field returned by sweObject echoes the caller's body
identifier, and the id field returned by sweFixedStar echoes the
caller's star argument; the engine's own resolved star name is
discarded: two engines whose fixstar2Ut responses agree except possibly
on the resolved name (and whose magnitudes agree) give identical
sweFixedStar results. -/
theorem idFieldsEchoCallerInputs (eng eng2 : Engine)
    (sePath obj star : String) (jd : ℚ) (flags : ℤ) (code : ℕ)
    (hcode : SWE_OBJECTS.lookup obj = some code)
    (hxx : ∀ s j f, (eng2.fixstar2Ut s j f).xx = (eng.fixstar2Ut s j f).xx)
    (hflg : ∀ s j f, (eng2.fixstar2Ut s j f).flg = (eng.fixstar2Ut s j f).flg)
    (hmag : ∀ s, eng2.fixstar2Mag s = eng.fixstar2Mag s) :
    objIdOf (sweObject eng sePath obj jd flags) = some obj ∧
    (sweFixedStar eng star jd flags).1.id = star ∧
    sweFixedStar eng2 star jd flags = sweFixedStar eng star jd flags := by
  refine ⟨?_, rfl, ?_⟩
  · simp [objIdOf, sweObject, hcode]
  · simp [sweFixedStar, hxx, hmag]

/-- C10 witness: two engines differing only in the resolved star name
give the same record, whose id echoes the caller's argument. -/
theorem idFieldsEchoCallerInputs_witness :
    objIdOf (sweObject testEngine "" SUN 0 0) = some SUN ∧
    (sweFixedStar testEngine "Aldebaran" 0 0).1.id = "Aldebaran" ∧
    sweFixedStar testEngine2 "Aldebaran" 0 0 =
      sweFixedStar testEngine "Aldebaran" 0 0 :=
  idFieldsEchoCallerInputs testEngine testEngine2 "" SUN "Aldebaran" 0 0 0
    (by decide) (fun _ _ _ => rfl) (fun _ _ _ => rfl) (fun _ => rfl)

end Swe
